import Mathlib

/-!
Verification of the ClassMood client-side script (`src/app/static/script.js`).

The file contains two near-identical copies of the same script; the claims
reference the second (documented) copy.  We shallowly embed the relevant
functions:

* `checkAuth` — the page-load session guard (boot-id check, token
  validation, redirects), modelled as a function from the persisted store,
  a server-response environment and the page path to a final store and a
  trace of observable actions.
* `renderChart` / `chartPoints` — the canvas chart renderer, modelled over
  exact rational arithmetic (the JS double computations in the claims are
  exact at the inputs considered), producing a trace of canvas operations.
* `upload` and `deleteFile` (best-effort variant) — modelled as traces of
  network/UI actions.

Fetch responses are modelled by `Resp`: the promise either rejects
(`threw`, a network error), or resolves with `res.ok = false` (`notOk`),
or resolves successfully with a parsed body (`ok`).
-/

namespace ClassMood

/-- A fetch outcome as observed by the script: rejected promise (network
error), resolved with a non-2xx status, or resolved 2xx with parsed body. -/
inductive Resp (α : Type) where
  | threw : Resp α
  | notOk : Resp α
  | ok : α → Resp α
deriving DecidableEq, Repr

/-- The client-persisted localStorage keys used by the script. -/
structure Store where
  token : Option String
  boot_id : Option String
deriving DecidableEq, Repr

/-- Server responses and DOM facts fixed for one run of `checkAuth`:
the `/meta/boot` response (body is `boot_id`), the `/media/files`
validation response, the `/auth/me` response (body is the username),
whether the auth-form elements (`.tabs`, `login-form`, `register-form`)
all exist, and whether the `profile-username` element exists. -/
structure Env where
  bootResp : Resp String
  filesResp : Resp Unit
  meResp : Resp String
  hasForms : Bool
  hasNameEl : Bool
deriving DecidableEq, Repr

/-- Observable actions of the session guard, in program order. -/
inductive Act where
  | fetchBoot
  | setBootId (b : String)
  | removeToken
  | fetchFiles (tok : String)
  | fetchMe (tok : String)
  | navigate (url : String)
  | showForms
  | loadFiles
  | setNameText (u : String)
deriving DecidableEq, Repr

/-- Step 1 of `checkAuth` (script.js lines 343-356): probe `/meta/boot`;
on success, the guard `if (prevBoot && prevBoot !== boot_id)` removes the
token only when the stored boot id is truthy (present and non-empty, since
`getItem` yields `null` when absent and the empty string is falsy) AND
differs from the fresh one; the stored boot id is always overwritten.  A
failed or non-ok probe changes nothing. -/
def bootPhase (st : Store) (env : Env) : Store × List Act :=
  match env.bootResp with
  | .threw => (st, [.fetchBoot])
  | .notOk => (st, [.fetchBoot])
  | .ok b =>
    match st.boot_id with
    | some prev =>
      if prev ≠ "" ∧ prev ≠ b then
        ({ token := none, boot_id := some b }, [.fetchBoot, .removeToken, .setBootId b])
      else
        ({ st with boot_id := some b }, [.fetchBoot, .setBootId b])
    | none => ({ st with boot_id := some b }, [.fetchBoot, .setBootId b])

/-- JavaScript `String.prototype.startsWith`, expressed structurally on
the character lists (first the string, then the pattern). -/
def startsWithChars : List Char → List Char → Bool
  | _, [] => true
  | [], _ :: _ => false
  | c :: cs, d :: ds => c = d && startsWithChars cs ds

/-- Models `window.location.pathname || '/'` followed by stripping one trailing
slash when the path is longer than `/` (script.js lines 360-361):
`path.endsWith('/')` is "last character is `/`" and `path.slice(0, -1)`
drops that last character. -/
def normalizePath (p0 : String) : String :=
  let p := if p0 = "" then "/" else p0
  if 1 < p.data.length ∧ p.data.getLast? = some '/' then String.mk p.data.dropLast else p

/-- The `onAuthPage` classifier (script.js line 362). -/
def onAuthPage (p : String) : Bool :=
  p = "/" || p = "/auth" || startsWithChars p.data "/auth?".data

/-- The `onUploadPage` classifier (script.js line 363). -/
def onUploadPage (p : String) : Bool :=
  p = "/upload" || startsWithChars p.data "/upload?".data

/-- The `onProfilePage` classifier (script.js line 364). -/
def onProfilePage (p : String) : Bool :=
  p = "/profile" || startsWithChars p.data "/profile?".data

/-- The `onAlgorithmPage` classifier (script.js line 365). -/
def onAlgorithmPage (p : String) : Bool :=
  p = "/algorithm" || startsWithChars p.data "/algorithm?".data

/-- The test `onUploadPage || onProfilePage || onAlgorithmPage`, the private-page
test repeated in the script. -/
def isPrivate (p : String) : Bool :=
  onUploadPage p || onProfilePage p || onAlgorithmPage p

/-- The form-reveal block: it toggles the `hidden` classes only when all
three elements exist (script.js lines 373-380 and the two copies of the
same block further down). -/
def revealForms (env : Env) : List Act :=
  if env.hasForms then [.showForms] else []

/-- UI refresh on a private page with a valid token (script.js lines
396-407): call `loadUserFiles`, then best-effort fetch `/auth/me` via
`getCurrentUser` and set the username element when it exists; any
exception there is swallowed. -/
def privateUI (tok : String) (env : Env) : List Act :=
  .loadFiles ::
    (match env.meResp with
     | .threw => [.fetchMe tok]
     | .notOk => [.fetchMe tok]
     | .ok u => .fetchMe tok :: (if env.hasNameEl then [.setNameText u] else []))

/-- Steps 2-3 of `checkAuth` (script.js lines 358-439), after the boot
phase: read the (possibly just-cleared) token, classify the page, and run
the no-token / valid-token / invalid-token / network-error branches.
`st1`/`bootActs` are the store and trace produced by the boot phase and
`p` is the normalized path. -/
def checkAuthCore (st1 : Store) (bootActs : List Act) (env : Env) (p : String) :
    Store × List Act :=
  match st1.token with
  | none =>
    if isPrivate p then (st1, bootActs ++ [.navigate "/auth"])
    else (st1, bootActs ++ revealForms env)
  | some t =>
    match env.filesResp with
    | .ok _ =>
      if onAuthPage p then (st1, bootActs ++ [.fetchFiles t, .navigate "/upload"])
      else if isPrivate p then (st1, bootActs ++ .fetchFiles t :: privateUI t env)
      else (st1, bootActs ++ [.fetchFiles t])
    | .notOk =>
      let st2 := { st1 with token := none }
      if isPrivate p then
        (st2, bootActs ++ [.fetchFiles t, .removeToken, .navigate "/auth"])
      else
        (st2, bootActs ++ [.fetchFiles t, .removeToken] ++ revealForms env)
    | .threw =>
      let st2 := { st1 with token := none }
      if onUploadPage p then
        (st2, bootActs ++ [.fetchFiles t, .removeToken, .navigate "/auth"])
      else
        (st2, bootActs ++ [.fetchFiles t, .removeToken] ++ revealForms env)

/-- The session guard `checkAuth` (script.js lines 341-440): boot-id
phase, then the path-classified redirect/validation logic.  Returns the
final store and the trace of observable actions. -/
def checkAuth (st0 : Store) (env : Env) (rawPath : String) : Store × List Act :=
  checkAuthCore (bootPhase st0 env).1 (bootPhase st0 env).2 env (normalizePath rawPath)

/-- Is this action a `window.location.replace` call? -/
def isNavigate : Act → Bool
  | .navigate _ => true
  | _ => false

/-- Is this action a request to a bearer-authenticated (protected)
endpoint (`/media/files` or `/auth/me`)? -/
def isProtectedFetch : Act → Bool
  | .fetchFiles _ => true
  | .fetchMe _ => true
  | _ => false

/-- Predicate: `checkAuth` detected a boot-id change — the probe
succeeded and a previously stored truthy (non-empty) boot id differs
from the fresh one.  An empty stored boot id is falsy in JS, so the
guard `prevBoot && prevBoot !== boot_id` treats it like no record at
all and does not trigger. -/
def bootMismatch (st : Store) (env : Env) : Prop :=
  ∃ b prev, env.bootResp = .ok b ∧ st.boot_id = some prev ∧ prev ≠ "" ∧ prev ≠ b

/-- The token-validation fetch was made (a token survived the boot phase)
and came back with a non-2xx status. -/
def validationRejected (st : Store) (env : Env) : Prop :=
  (bootPhase st env).1.token.isSome ∧ env.filesResp = .notOk

/-! ### Chart renderer -/

/-- A point of the analyze series as received from the server.  `none`
stands for a field whose `Number(...)` coercion is `NaN` (absent,
`undefined`, or a non-numeric string); `some q` for a numeric field. -/
structure SeriesPoint where
  t : Option ℚ
  value : Option ℚ
deriving DecidableEq, Repr

/-- Models `Number(x) || 0` (script.js lines 264-265): a non-numeric field reads
as `0` (note `0 || 0 = 0`, so `some 0` and `none` agree). -/
def numOr0 : Option ℚ → ℚ
  | some q => q
  | none => 0

/-- Models `Math.min(...l)` over a nonempty list (the empty case is unreachable
behind the `series.length === 0` guard). -/
def listMinQ : List ℚ → ℚ
  | [] => 0
  | x :: xs => xs.foldl min x

/-- Models `Math.max(...l)` over a nonempty list. -/
def listMaxQ : List ℚ → ℚ
  | [] => 0
  | x :: xs => xs.foldl max x

/-- Canvas-2D operations issued by `renderChart`, in program order. -/
inductive CanvasOp where
  | clearRect (x y w h : ℚ)
  | setStrokeStyle (s : String)
  | setLineWidth (n : ℚ)
  | setFillStyle (s : String)
  | setFont (s : String)
  | setTextAlign (s : String)
  | beginPath
  | moveTo (x y : ℚ)
  | lineTo (x y : ℚ)
  | stroke
  | fillText (s : String) (x y : ℚ)
deriving DecidableEq, Repr

/-- The point-to-pixel mapping of `renderChart` (script.js lines 262-311):
coerce `t`/`value` with `Number(...) || 0`, take the observed time bounds,
fix the value range to `[0,1]`, and map through the scale helpers `x` and
`y` with padding `padL=40, padR=10, padT=10, padB=30` and the `1e-9`
minimum denominator.  Arithmetic is exact rational arithmetic. -/
def chartPoints (series : List SeriesPoint) (w h : ℚ) : List (ℚ × ℚ) :=
  let times := series.map (fun p => numOr0 p.t)
  let values := series.map (fun p => numOr0 p.value)
  let tMin := listMinQ times
  let tMax := listMaxQ times
  let vMin : ℚ := 0
  let vMax : ℚ := 1
  let padL : ℚ := 40
  let padR : ℚ := 10
  let padT : ℚ := 10
  let padB : ℚ := 30
  let plotW := w - padL - padR
  let plotH := h - padT - padB
  let x := fun t => padL + ((t - tMin) / max (1 / 1000000000) (tMax - tMin)) * plotW
  let y := fun v => padT + (1 - (v - vMin) / max (1 / 1000000000) (vMax - vMin)) * plotH
  (times.zip values).map (fun tv => (x tv.1, y tv.2))

/-- The polyline loop (script.js lines 308-312): `moveTo` the first pixel,
`lineTo` every later one. -/
def polyOps : List (ℚ × ℚ) → List CanvasOp
  | [] => []
  | q :: qs => .moveTo q.1 q.2 :: qs.map (fun r => CanvasOp.lineTo r.1 r.2)

/-- The renderer `renderChart` (script.js lines 251-314) as a canvas-operation trace.
`hasCanvas` is whether `document.getElementById` finds the canvas;
`series = none` models a null/undefined argument.  The JS `toFixed(0)`
tick labels are rendered here with `toString` (no claim concerns the
label text).  Note the canvas is cleared *before* the empty-series
guard. -/
def renderChart (hasCanvas : Bool) (w h : ℚ) (series : Option (List SeriesPoint)) :
    List CanvasOp :=
  if !hasCanvas then [] else
  let clear := [CanvasOp.clearRect 0 0 w h]
  match series with
  | none => clear
  | some s =>
    if s.isEmpty then clear else
    let times := s.map (fun p => numOr0 p.t)
    let tMin := listMinQ times
    let tMax := listMaxQ times
    clear ++
      [.setStrokeStyle "#888", .setLineWidth 1,
       .beginPath, .moveTo 40 (h - 30), .lineTo (w - 10) (h - 30), .stroke,
       .beginPath, .moveTo 40 10, .lineTo 40 (h - 30), .stroke,
       .setFillStyle "#555", .setFont "12px sans-serif", .setTextAlign "center",
       .fillText (toString tMin ++ "s") 40 (h - 10),
       .fillText (toString tMax ++ "s") (w - 10) (h - 10),
       .setTextAlign "right",
       .fillText "1.0" 34 14, .fillText "0.0" 34 (h - 30),
       .setStrokeStyle "#2a7", .setLineWidth 2, .beginPath] ++
      polyOps (chartPoints s w h) ++ [.stroke]

/-- Replace every non-numeric field of a point by the numeric `0` it
coerces to. -/
def sanitizePoint (p : SeriesPoint) : SeriesPoint :=
  { t := some (numOr0 p.t), value := some (numOr0 p.value) }

/-! ### Upload and delete -/

/-- Network/UI actions of `upload`, `deleteFile` and their helpers. -/
inductive FileAct where
  | alertMsg (s : String)
  | fetchUpload (tok : String)
  | setResults (html : String)
  | loadFiles
  | fetchDelete (id : ℤ) (tok : String)
deriving DecidableEq, Repr

/-- The parsed body of the upload response: the uploaded filenames from
`data.results`, and the optional `data.detail` error field. -/
structure UploadBody where
  filenames : List String
  detail : Option String
deriving DecidableEq, Repr

/-- JavaScript `a || b` on an optional string: an absent or empty string
falls back to `b`. -/
def jsOrStr (a : Option String) (b : String) : String :=
  match a with
  | some s => if s = "" then b else s
  | none => b

/-- A resolved fetch carries both `res.ok` and the parsed JSON body
(`upload` reads `data` on both branches). -/
inductive RespBody (α : Type) where
  | threw : RespBody α
  | resp : Bool → α → RespBody α
deriving DecidableEq, Repr

/-- The alert text shown by `upload` when no token is stored. -/
def uploadAlertText : String :=
  "Set token in localStorage: localStorage.setItem(\"token\", \"your_token\")"

/-- Models `upload` (script.js lines 193-218): no token means alert and return;
otherwise POST the files, then on `res.ok` write the green result line
and refresh the list, else write the red error line.  A rejected fetch
propagates, so nothing after it runs. -/
def upload (token : Option String) (r : RespBody UploadBody) : List FileAct :=
  match token with
  | none => [.alertMsg uploadAlertText]
  | some t =>
    match r with
    | .threw => [.fetchUpload t]
    | .resp true body =>
      [.fetchUpload t,
       .setResults ("<p style=\"color: green;\">Uploaded: "
         ++ String.intercalate ", " body.filenames ++ "</p>"),
       .loadFiles]
    | .resp false body =>
      [.fetchUpload t,
       .setResults ("<p style=\"color: red;\">Error: "
         ++ jsOrStr body.detail "Unknown" ++ "</p>")]

/-- The best-effort `deleteFile` variant (script.js lines 468-479): bail
out without a token; otherwise DELETE and, whenever a response arrives
(ok or not), refresh the list; a rejected fetch is swallowed without a
refresh. -/
def deleteFile (token : Option String) (r : Resp Unit) (id : ℤ) : List FileAct :=
  match token with
  | none => []
  | some t =>
    match r with
    | .threw => [.fetchDelete id t]
    | .notOk => [.fetchDelete id t, .loadFiles]
    | .ok _ => [.fetchDelete id t, .loadFiles]

/-! ## Helper lemmas -/

theorem bootPhase_token_cases (st : Store) (env : Env) :
    (bootPhase st env).1.token = st.token ∨ (bootPhase st env).1.token = none := by
  obtain ⟨br, fr, mr, hf, hn⟩ := env
  obtain ⟨tok, bid⟩ := st
  cases br <;> simp [bootPhase]
  cases bid <;> simp
  split <;> simp

theorem bootPhase_token_of_none (st : Store) (env : Env) (h : st.token = none) :
    (bootPhase st env).1.token = none := by
  rcases bootPhase_token_cases st env with h' | h' <;> simp [h', h]

theorem bootPhase_mismatch_token (st : Store) (env : Env) (h : bootMismatch st env) :
    (bootPhase st env).1.token = none := by
  obtain ⟨b, prev, hb, hprev, hne0, hne⟩ := h
  unfold bootPhase
  rw [hb, hprev]
  simp [hne0, hne]

theorem bootPhase_acts_clean (st : Store) (env : Env) :
    (bootPhase st env).2.filter isNavigate = [] ∧
    (bootPhase st env).2.filter isProtectedFetch = [] := by
  obtain ⟨br, fr, mr, hf, hn⟩ := env
  obtain ⟨tok, bid⟩ := st
  cases br <;> simp [bootPhase, isNavigate, isProtectedFetch]
  cases bid <;> simp [isNavigate, isProtectedFetch]
  split <;> simp [isNavigate, isProtectedFetch]

theorem navigate_not_mem_of_filter {l : List Act} (h : l.filter isNavigate = []) (u : String) :
    Act.navigate u ∉ l := by
  intro hmem
  have := List.filter_eq_nil_iff.mp h _ hmem
  simp [isNavigate] at this

theorem revealForms_filter_isNavigate (env : Env) :
    (revealForms env).filter isNavigate = [] := by
  unfold revealForms
  split <;> simp [isNavigate]

theorem revealForms_mem_showForms (env : Env) (h : env.hasForms = true) :
    Act.showForms ∈ revealForms env := by
  simp [revealForms, h]

theorem checkAuthCore_token_none (st1 : Store) (acts : List Act) (env : Env) (p : String)
    (h : st1.token = none) :
    (checkAuthCore st1 acts env p).1.token = none := by
  simp only [checkAuthCore, h]
  split <;> exact h

theorem checkAuthCore_notOk_token (st1 : Store) (acts : List Act) (env : Env) (p : String)
    (t : String) (h : st1.token = some t) (hf : env.filesResp = Resp.notOk) :
    (checkAuthCore st1 acts env p).1.token = none := by
  simp only [checkAuthCore, h, hf]
  split <;> rfl

theorem checkAuthCore_threw_token (st1 : Store) (acts : List Act) (env : Env) (p : String)
    (t : String) (h : st1.token = some t) (hf : env.filesResp = Resp.threw) :
    (checkAuthCore st1 acts env p).1.token = none := by
  simp only [checkAuthCore, h, hf]
  split <;> rfl

/-! ## Claim theorems -/

/-- C1 counterexample.  With stored boot id `""` and a differing fresh
boot id `"x"`, the truthiness guard `prevBoot && prevBoot !== boot_id`
(script.js line 348) short-circuits on the falsy empty string and skips
the token removal: `checkAuth` finishes with the token still stored even
though the stored boot id it read differs from the one `GET /meta/boot`
returned — refuting the claim as stated. -/
theorem checkAuth_empty_boot_id_keeps_token :
    ((⟨some "tok", some ""⟩ : Store).boot_id = some "" ∧
      (⟨Resp.ok "x", Resp.ok (), Resp.ok "u", true, true⟩ : Env).bootResp = Resp.ok "x" ∧
      ("" : String) ≠ "x") ∧
    (checkAuth ⟨some "tok", some ""⟩
      ⟨Resp.ok "x", Resp.ok (), Resp.ok "u", true, true⟩ "/upload").1.token = some "tok" :=
  ⟨⟨rfl, rfl, by decide⟩, rfl⟩

/-- C1 (amended).  Token-staleness invariant under the code's own
staleness test: whenever `checkAuth` detects a boot-id change through
the guard `prevBoot && prevBoot !== boot_id` (a truthy, i.e. non-empty,
stored boot id differing from the fresh one), or a token survives the
boot phase and the protected file-list request resolves with a
non-success status, the stored token ends up removed — so a token still
stored after `checkAuth` was never detected-stale during the run. -/
theorem checkAuth_token_staleness (st : Store) (env : Env) (rawPath : String)
    (h : bootMismatch st env ∨ validationRejected st env) :
    (checkAuth st env rawPath).1.token = none := by
  unfold checkAuth
  rcases h with hm | hv
  · exact checkAuthCore_token_none _ _ _ _ (bootPhase_mismatch_token st env hm)
  · obtain ⟨hsome, hfiles⟩ := hv
    obtain ⟨t, ht⟩ := Option.isSome_iff_exists.mp hsome
    exact checkAuthCore_notOk_token _ _ _ _ t ht hfiles

/-- Witness for C1 (amended) at a concrete truthy boot-id mismatch. -/
theorem checkAuth_token_staleness_witness :
    (checkAuth ⟨some "tok", some "b"⟩
      ⟨Resp.ok "c", Resp.ok (), Resp.ok "u", true, true⟩ "/upload").1.token = none :=
  checkAuth_token_staleness _ _ _ (Or.inl ⟨"c", "b", rfl, rfl, by decide, by decide⟩)

/-- C2 counterexample.  On `/profile` (a private page) with a stored
token, a network error in the validation fetch clears the token but does
NOT redirect: the `catch` branch of `checkAuth` only checks
`onUploadPage` (script.js line 427), contradicting the claim that every
token-validation failure redirects from any private page. -/
theorem checkAuth_network_error_profile_keeps_page :
    (checkAuth ⟨some "tok", some "b"⟩
      ⟨Resp.ok "b", Resp.threw, Resp.notOk, true, false⟩ "/profile").1.token = none ∧
    isPrivate (normalizePath "/profile") = true ∧
    (checkAuth ⟨some "tok", some "b"⟩
      ⟨Resp.ok "b", Resp.threw, Resp.notOk, true, false⟩ "/profile").2.filter isNavigate
      = [] :=
  ⟨rfl, rfl, rfl⟩

/-- C2 (amended).  When a token survives the boot phase: a non-2xx
validation response clears the token, redirects to `/auth` from any
private page, and reveals the auth forms (when present) on non-private
pages; a network error (rejected fetch) clears the token but redirects
only from `/upload` — on any other page, `/profile` and `/algorithm`
included, it performs no navigation and falls through to the
form-reveal block. -/
theorem checkAuth_validation_failure_behavior (st : Store) (env : Env) (rawPath : String)
    (t : String) (ht : (bootPhase st env).1.token = some t) :
    (env.filesResp = Resp.notOk →
      (checkAuth st env rawPath).1.token = none ∧
      (isPrivate (normalizePath rawPath) = true →
        Act.navigate "/auth" ∈ (checkAuth st env rawPath).2) ∧
      (isPrivate (normalizePath rawPath) = false → env.hasForms = true →
        Act.showForms ∈ (checkAuth st env rawPath).2)) ∧
    (env.filesResp = Resp.threw →
      (checkAuth st env rawPath).1.token = none ∧
      (onUploadPage (normalizePath rawPath) = true →
        Act.navigate "/auth" ∈ (checkAuth st env rawPath).2) ∧
      (onUploadPage (normalizePath rawPath) = false →
        (checkAuth st env rawPath).2.filter isNavigate = [] ∧
        (env.hasForms = true → Act.showForms ∈ (checkAuth st env rawPath).2))) := by
  unfold checkAuth
  constructor
  · intro hf
    refine ⟨checkAuthCore_notOk_token _ _ _ _ t ht hf, ?_, ?_⟩
    · intro hp
      simp only [checkAuthCore, ht, hf, hp]
      simp
    · intro hp hforms
      simp only [checkAuthCore, ht, hf, hp]
      simp [revealForms_mem_showForms env hforms]
  · intro hf
    refine ⟨checkAuthCore_threw_token _ _ _ _ t ht hf, ?_, ?_⟩
    · intro hp
      simp only [checkAuthCore, ht, hf, hp]
      simp
    · intro hp
      simp only [checkAuthCore, ht, hf, hp]
      constructor
      · simp [List.filter_append, (bootPhase_acts_clean st env).1,
          revealForms_filter_isNavigate, isNavigate]
      · intro hforms
        simp [revealForms_mem_showForms env hforms]

/-- Witness for C2 (amended): a non-2xx validation response on `/upload`
clears the token. -/
theorem checkAuth_validation_failure_behavior_witness :
    (checkAuth ⟨some "tok", some "b"⟩
      ⟨Resp.ok "b", Resp.notOk, Resp.ok "u", true, true⟩ "/upload").1.token = none :=
  ((checkAuth_validation_failure_behavior ⟨some "tok", some "b"⟩
      ⟨Resp.ok "b", Resp.notOk, Resp.ok "u", true, true⟩ "/upload" "tok" rfl).1 rfl).1

/-- C3.  On any page whose (normalized) path is classified neither as the
public page (`/`, `/auth`) nor as a private page (`/upload`, `/profile`,
`/algorithm`), `checkAuth` never calls `window.location.replace`,
whatever the stored state and server responses. -/
theorem checkAuth_untouched_pages (st : Store) (env : Env) (rawPath u : String)
    (h1 : onAuthPage (normalizePath rawPath) = false)
    (h2 : isPrivate (normalizePath rawPath) = false) :
    Act.navigate u ∉ (checkAuth st env rawPath).2 := by
  have hb := navigate_not_mem_of_filter (bootPhase_acts_clean st env).1 u
  have hr := navigate_not_mem_of_filter (revealForms_filter_isNavigate env) u
  have hup : onUploadPage (normalizePath rawPath) = false := by
    simp [isPrivate] at h2
    exact h2.1.1
  unfold checkAuth
  cases htok : (bootPhase st env).1.token with
  | none =>
    simp only [checkAuthCore, htok, h2]
    simp [hb, hr]
  | some t =>
    cases hfr : env.filesResp with
    | threw =>
      simp only [checkAuthCore, htok, hfr, hup]
      simp [hb, hr]
    | notOk =>
      simp only [checkAuthCore, htok, hfr, h2]
      simp [hb, hr]
    | ok v =>
      simp only [checkAuthCore, htok, hfr, h1, h2]
      simp [hb]

/-- Witness for C3 on the unclassified path `/dashboard`. -/
theorem checkAuth_untouched_pages_witness :
    Act.navigate "/auth" ∉ (checkAuth ⟨some "tok", some "b"⟩
      ⟨Resp.ok "b", Resp.notOk, Resp.ok "u", true, true⟩ "/dashboard").2 :=
  checkAuth_untouched_pages _ _ _ _ (by rfl) (by rfl)

/-- C4.  With no stored token on a private page, `checkAuth`'s trace is
exactly the boot-probe trace followed by the redirect to `/auth`, and it
contains no request to a protected (bearer-authenticated) endpoint: only
the unauthenticated boot-id probe precedes the redirect. -/
theorem checkAuth_no_token_private_redirect (st : Store) (env : Env) (rawPath : String)
    (h1 : st.token = none)
    (h2 : isPrivate (normalizePath rawPath) = true) :
    (checkAuth st env rawPath).2 = (bootPhase st env).2 ++ [Act.navigate "/auth"] ∧
    (checkAuth st env rawPath).2.filter isProtectedFetch = [] := by
  have ht := bootPhase_token_of_none st env h1
  unfold checkAuth
  simp only [checkAuthCore, ht, h2]
  constructor
  · simp
  · simp [List.filter_append, (bootPhase_acts_clean st env).2, isProtectedFetch]

/-- Witness for C4 at a concrete tokenless visit to `/profile`. -/
theorem checkAuth_no_token_private_redirect_witness :
    (checkAuth ⟨none, some "b"⟩
        ⟨Resp.ok "b", Resp.ok (), Resp.ok "u", true, true⟩ "/profile").2
      = (bootPhase ⟨none, some "b"⟩ ⟨Resp.ok "b", Resp.ok (), Resp.ok "u", true, true⟩).2
        ++ [Act.navigate "/auth"] :=
  (checkAuth_no_token_private_redirect _ _ _ rfl (by rfl)).1

theorem foldl_min_all_eq (c : ℚ) :
    ∀ (l : List ℚ), (∀ x ∈ l, x = c) → ∀ a, a = c → l.foldl min a = c := by
  intro l
  induction l with
  | nil => intro _ a ha; simpa using ha
  | cons x xs ih =>
    intro hall a ha
    have hx : x = c := hall x (by simp)
    have : min a x = c := by rw [ha, hx]; exact min_self c
    exact ih (fun y hy => hall y (by simp [hy])) _ this

theorem listMinQ_all_eq (c : ℚ) (l : List ℚ) (hne : l ≠ []) (h : ∀ x ∈ l, x = c) :
    listMinQ l = c := by
  cases l with
  | nil => exact absurd rfl hne
  | cons x xs =>
    exact foldl_min_all_eq c xs (fun y hy => h y (by simp [hy])) x (h x (by simp))

/-- C5.  On the series `[(t 0, value 0), (t 10, value 1)]` the renderer
maps the first point to the pixel `(padL, h - padB) = (40, h - 30)` and
the second to `(w - padR, padT) = (w - 10, 10)`, for any canvas size. -/
theorem chartPoints_ramp_endpoints (w h : ℚ) :
    chartPoints [⟨some 0, some 0⟩, ⟨some 10, some 1⟩] w h =
      [(40, h - 30), (w - 10, 10)] := by
  simp only [chartPoints, listMinQ, listMaxQ, numOr0, List.map_cons, List.map_nil,
    List.zip_cons_cons, List.zip_nil_right]
  norm_num
  constructor <;> ring

/-- C6.  On any non-empty series whose coerced timestamps are all equal,
`chartPoints` is total (never throws: the denominator is
`max 1e-9 (tMax - tMin)`) and every point lands on the left margin
`x = padL = 40`, at the height determined by its value. -/
theorem chartPoints_const_time_left_margin (s : List SeriesPoint) (w h c : ℚ)
    (hne : s ≠ []) (hc : ∀ p ∈ s, numOr0 p.t = c) :
    chartPoints s w h = s.map (fun p => (40, 10 + (1 - numOr0 p.value) * (h - 40))) := by
  have htimes : ∀ x ∈ s.map (fun p => numOr0 p.t), x = c := by
    intro x hx
    obtain ⟨p, hp, rfl⟩ := List.mem_map.mp hx
    exact hc p hp
  have hmin : listMinQ (s.map (fun p => numOr0 p.t)) = c :=
    listMinQ_all_eq c _ (by simpa using hne) htimes
  simp only [chartPoints]
  rw [List.zip_map', List.map_map]
  refine List.map_congr_left ?_
  intro p hp
  simp only [Function.comp_apply, hmin, hc p hp]
  norm_num
  left
  ring

/-- Witness for C6: a two-point series at constant time 5 on a 600×300
canvas maps onto the left margin. -/
theorem chartPoints_const_time_left_margin_witness :
    chartPoints [⟨some 5, some 0⟩, ⟨some 5, some 1⟩] 600 300 =
      ([⟨some 5, some 0⟩, ⟨some 5, some 1⟩] : List SeriesPoint).map
        (fun p => (40, 10 + (1 - numOr0 p.value) * (300 - 40))) :=
  chartPoints_const_time_left_margin [⟨some 5, some 0⟩, ⟨some 5, some 1⟩] 600 300 5
    (by simp) (by decide)

/-- C7 counterexample.  `renderChart` on an empty series is not free of
canvas mutations: it issues `clearRect` before the empty-series guard,
so the canvas state does not equal the state before the call. -/
theorem renderChart_empty_clears_canvas :
    renderChart true 100 100 (some []) ≠ [] := by
  simp [renderChart]

/-- C7 (amended).  On a missing canvas the trace is empty; on a
null/undefined or empty series the trace is exactly the initial
`clearRect` — the canvas is cleared but nothing is drawn. -/
theorem renderChart_degenerate_trace (w h : ℚ) (s : Option (List SeriesPoint)) :
    renderChart false w h s = [] ∧
    renderChart true w h none = [CanvasOp.clearRect 0 0 w h] ∧
    renderChart true w h (some []) = [CanvasOp.clearRect 0 0 w h] :=
  ⟨rfl, rfl, rfl⟩

/-- C10.  Point fields go through `Number(...) || 0`: a non-numeric `t`
or `value` (modelled as `none`) reads as `0`, so plotting a series
equals plotting the series with every field replaced by its numeric
coercion — and `chartPoints` is a total function (it cannot throw on
non-numeric fields). -/
theorem chartPoints_numeric_coercion (s : List SeriesPoint) (w h : ℚ) :
    numOr0 none = 0 ∧
    chartPoints (s.map sanitizePoint) w h = chartPoints s w h := by
  refine ⟨rfl, ?_⟩
  unfold chartPoints
  simp only [List.map_map]
  have h1 : (fun p => numOr0 p.t) ∘ sanitizePoint = fun p : SeriesPoint => numOr0 p.t := by
    funext p; rfl
  have h2 : (fun p => numOr0 p.value) ∘ sanitizePoint
      = fun p : SeriesPoint => numOr0 p.value := by
    funext p; rfl
  rw [h1, h2]

/-- C8.  In the best-effort `deleteFile`, whenever the DELETE request
completes with a response (of any status), the trace contains exactly
one list-refresh call. -/
theorem deleteFile_single_refresh (tok : Option String) (r : Resp Unit) (id : ℤ)
    (t : String) (h1 : tok = some t) (h2 : r ≠ Resp.threw) :
    (deleteFile tok r id).count FileAct.loadFiles = 1 := by
  subst h1
  cases r with
  | threw => exact absurd rfl h2
  | notOk => simp [deleteFile, List.count_cons]
  | ok v => simp [deleteFile, List.count_cons]

/-- Witness for C8 at a concrete successful delete. -/
theorem deleteFile_single_refresh_witness :
    (deleteFile (some "tok") (Resp.ok ()) 1).count FileAct.loadFiles = 1 :=
  deleteFile_single_refresh (some "tok") (Resp.ok ()) 1 "tok" rfl (by simp)

/-- C9.  With no stored token, `upload` only raises the explanatory
alert: it issues no network request and never writes the results
element. -/
theorem upload_no_token_noop (r : RespBody UploadBody) :
    upload none r = [FileAct.alertMsg uploadAlertText] ∧
    (∀ t, FileAct.fetchUpload t ∉ upload none r) ∧
    (∀ html, FileAct.setResults html ∉ upload none r) := by
  refine ⟨rfl, ?_, ?_⟩ <;> intro x <;> simp [upload]

end ClassMood
